import Mathlib

/-!
# Prometheus remote-write scraper (`node/pkg/telemetry/prom_remote_write/scrape.go`)

A shallow embedding of `scrapeLocalMetrics`, `scrapeAndSendLocalMetrics` and
`StartPrometheusScraper`.

The three functions are effectful: they call the HTTP client, the text-format
converter, the protobuf marshaller, the snappy encoder, the logger and the
clock.  Every such call is recorded, in program order, as an `Event` of a
trace, and what the outside world answers to a call is read from an `Env`
(one `Env` per cycle).  Go `(value, error)` results are `Except GoError _`.
The `*string` arguments are taken as the strings they point to.
An error is returned by the source as the library gave it, so `GoError` keeps
the one distinction of type the libraries make: `*url.Error` or not.
-/

namespace PromRemoteWrite

/-! ## Data model -/

abbrev Byte := Fin 256

abbrev Bytes := List Byte

/-- A Go `error` value: a `*url.Error` with its `Op`, `URL` and wrapped
    error, or an error of any other type, identified by its message. -/
inductive GoError where
  | plain (text : String)
  | urlError (op : String) (url : String) (err : GoError)
  deriving DecidableEq, Repr

/-- An `http.Header`: the entries in the order they were first set. -/
abbrev Header := List (String × String)

/-- The fields of `http.Request` the scraper touches.  `body = none` is the
    `nil` reader. -/
structure Request where
  method : String
  url : String
  body : Option Bytes
  header : Header
  deriving DecidableEq, Repr

/-- An `http.Response`: its status code and what `io.ReadAll(res.Body)`
    gives, the bytes read and the read error if there is one. -/
structure Response where
  statusCode : Int
  body : Bytes × Option GoError
  deriving DecidableEq, Repr

/-- A `map[string]string` of labels. -/
abbrev Labels := List (String × String)

/-- One sample of a series: timestamp in milliseconds and the bits of the
    float64 value. -/
structure Sample where
  timestamp : Int
  value : Nat
  deriving DecidableEq, Repr

structure TimeSeries where
  labels : Labels
  samples : List Sample
  deriving DecidableEq, Repr

/-- The write-request produced by the converter: an ordered collection of
    time series. -/
structure WriteRequest where
  timeseries : List TimeSeries
  deriving DecidableEq, Repr

/-! ## Logging -/

inductive Level where
  | debug
  | error
  deriving DecidableEq, Repr

/-- A zap field: `zap.Error err`, `zap.Int key v`, `zap.String key v`. -/
inductive Field where
  | err (e : GoError)
  | int (key : String) (v : Int)
  | str (key : String) (v : String)
  deriving DecidableEq, Repr

/-- A `*zap.Logger`, as the context fields attached to it by `With`. -/
structure Logger where
  context : List Field
  deriving DecidableEq, Repr

/-- The call `logger.With(fields...)`. -/
def Logger.With (logger : Logger) (fields : List Field) : Logger :=
  ⟨logger.context ++ fields⟩

structure LogEntry where
  context : List Field
  level : Level
  msg : String
  fields : List Field
  deriving DecidableEq, Repr

/-! ## External actions and the environment -/

/-- What the scraper does to the outside world. -/
inductive Event where
  | newRequest (method : String) (url : String) (body : Option Bytes)
  | clientDo (req : Request)
  | readAll (res : Response)
  | convert (input : Bytes) (labels : Labels)
  | marshal (wr : WriteRequest)
  | snappyEncode (raw : Bytes)
  | log (entry : LogEntry)
  | sleep (nanoseconds : Nat)
  deriving DecidableEq, Repr

/-- The answers of the outside world during one cycle.
    `newRequestErr method url` is the error of `http.NewRequest`, if any;
    `roundTrip` is `http.DefaultClient.Do`; `MetricTextToWriteRequest` is the
    converter of this package; `marshal` is `WriteRequest.Marshal`;
    `snappyEncode raw` is `snappy.Encode(nil, raw)`. -/
structure Env where
  newRequestErr : String → String → Option GoError
  roundTrip : Request → Except GoError Response
  MetricTextToWriteRequest : Bytes → Labels → Except GoError WriteRequest
  marshal : WriteRequest → Except GoError Bytes
  snappyEncode : Bytes → Bytes

/-- A computation: its value and the external actions it performed, in
    order. -/
structure Eff (α : Type) where
  val : α
  trace : List Event

instance : Monad Eff where
  pure a := ⟨a, []⟩
  bind m f := ⟨(f m.val).val, m.trace ++ (f m.val).trace⟩

def emit (e : Event) : Eff Unit := ⟨(), [e]⟩

/-! ## The calls into libraries -/

def MethodGet : String := "GET"

def MethodPost : String := "POST"

/-- The call `http.NewRequest(method, url, body)`: either the error the
    environment gives for this method and URL, or a request with these three
    fields and an empty header. -/
def httpNewRequest (env : Env) (method url : String) (body : Option Bytes) :
    Eff (Except GoError Request) := do
  emit (Event.newRequest method url body)
  match env.newRequestErr method url with
  | some err => return Except.error err
  | none => return Except.ok ⟨method, url, body, []⟩

/-- The call `http.DefaultClient.Do(req)`. -/
def clientDo (env : Env) (req : Request) : Eff (Except GoError Response) := do
  emit (Event.clientDo req)
  return env.roundTrip req

/-- The call `io.ReadAll(res.Body)`. -/
def ioReadAll (res : Response) : Eff (Bytes × Option GoError) := do
  emit (Event.readAll res)
  return res.body

/-- The call `req.Header.Set(key, value)`: the entry for `key` is replaced,
    or added at the end when there is none.  The keys the scraper uses are
    already in canonical MIME form, so they are stored as written. -/
def headerSet (req : Request) (key value : String) : Request :=
  if req.header.any (fun kv => kv.1 == key) then
    ⟨req.method, req.url, req.body,
      req.header.map (fun kv => if kv.1 == key then (key, value) else kv)⟩
  else
    ⟨req.method, req.url, req.body, req.header ++ [(key, value)]⟩

def convertCall (env : Env) (input : Bytes) (labels : Labels) :
    Eff (Except GoError WriteRequest) := do
  emit (Event.convert input labels)
  return env.MetricTextToWriteRequest input labels

def marshalCall (env : Env) (wr : WriteRequest) : Eff (Except GoError Bytes) := do
  emit (Event.marshal wr)
  return env.marshal wr

def snappyEncodeCall (env : Env) (raw : Bytes) : Eff Bytes := do
  emit (Event.snappyEncode raw)
  return env.snappyEncode raw

def Logger.Error (logger : Logger) (msg : String) (fields : List Field) : Eff Unit :=
  emit (Event.log ⟨logger.context, Level.error, msg, fields⟩)

def Logger.Debug (logger : Logger) (msg : String) (fields : List Field) : Eff Unit :=
  emit (Event.log ⟨logger.context, Level.debug, msg, fields⟩)

/-- The value `time.Second`, in nanoseconds. -/
def Second : Nat := 1000000000

def timeSleep (d : Nat) : Eff Unit := emit (Event.sleep d)

/-! ## The source functions -/

def metricsPort : Nat := 6060

/-- The value of `fmt.Sprintf("http://localhost:%d/metrics", metricsPort)`. -/
def metricsURL : String := "http://localhost:" ++ toString metricsPort ++ "/metrics"

/-- Source: `scrapeLocalMetrics` (scrape.go, lines 15-39). -/
def scrapeLocalMetrics (env : Env) : Eff (Except GoError Bytes) := do
  match ← httpNewRequest env MethodGet metricsURL none with
  | Except.error err => return Except.error err
  | Except.ok req =>
    match ← clientDo env req with
    | Except.error err => return Except.error err
    | Except.ok res =>
      match ← ioReadAll res with
      | (_, some err) => return Except.error err
      | (resBody, none) => return Except.ok resBody

/-- The value of `fmt.Sprintf("https://%s:%s@%s", *user, *key, *url)`. -/
def requestURL (user key url : String) : String :=
  "https://" ++ user ++ ":" ++ key ++ "@" ++ url

/-- The map literal `{"node_name": "testNode"}`. -/
def labels : Labels := [("node_name", "testNode")]

/-- Source: `scrapeAndSendLocalMetrics` (scrape.go, lines 41-89). -/
def scrapeAndSendLocalMetrics (env : Env) (url user key : String) (logger : Logger) :
    Eff Unit := do
  match ← scrapeLocalMetrics env with
  | Except.error error =>
    logger.Error "Could not scrape local metrics" [Field.err error]
    return
  | Except.ok metrics =>
    match ← convertCall env metrics labels with
    | Except.error err =>
      logger.Error "Could not create write request" [Field.err err]
      return
    | Except.ok writeRequest =>
      match ← marshalCall env writeRequest with
      | Except.error err =>
        logger.Error "Could not marshal write request" [Field.err err]
        return
      | Except.ok raw =>
        let oSnap ← snappyEncodeCall env raw
        match ← httpNewRequest env MethodPost (requestURL user key url) (some oSnap) with
        | Except.error err =>
          logger.Error "Could not create request" [Field.err err]
          return
        | Except.ok req =>
          let req := headerSet req "Content-Encoding" "snappy"
          let req := headerSet req "Content-Type" "application/x-protobuf"
          let req := headerSet req "User-Agent" "Guardian/2.23.12"
          let req := headerSet req "X-Prometheus-Remote-Write-Version" "0.1.0"
          match ← clientDo env req with
          | Except.error err =>
            logger.Error "Error creating http request" [Field.err err]
            return
          | Except.ok res =>
            logger.Debug "Grafana result" [Field.int "status code" res.statusCode]

/-- The loop `for { time.Sleep(15 * time.Second); scrapeAndSendLocalMetrics(...) }`
    run for `fuel` iterations, the iteration numbered `i` first.  `envs i` is
    the environment of iteration `i`. -/
def scraperLoop (envs : Nat → Env) (url user key : String) (promLogger : Logger) :
    Nat → Nat → Eff Unit
  | _, 0 => pure ()
  | i, fuel + 1 => do
    timeSleep (15 * Second)
    scrapeAndSendLocalMetrics (envs i) url user key promLogger
    scraperLoop envs url user key promLogger (i + 1) fuel

/-- Source: `StartPrometheusScraper` (scrape.go, lines 91-97), the first
    `fuel` iterations of its loop. -/
def StartPrometheusScraper (envs : Nat → Env) (promRemoteURL promRemoteUser promRemoteKey : String)
    (logger : Logger) (fuel : Nat) : Eff Unit :=
  let promLogger := logger.With [Field.str "component" "prometheus_scraper"]
  scraperLoop envs promRemoteURL promRemoteUser promRemoteKey promLogger 0 fuel

/-! ## The scheduler as a step function -/

/-- The two control points of the loop of `StartPrometheusScraper`: `Idle`
    before `time.Sleep`, `Running` before `scrapeAndSendLocalMetrics`. -/
inductive Phase where
  | Idle
  | Running
  deriving DecidableEq, Repr

/-- A state of the scheduler: its control point, the number of cycles
    completed, and the actions performed so far. -/
structure Sched where
  phase : Phase
  cycle : Nat
  trace : List Event

def Sched.init : Sched := ⟨Phase.Idle, 0, []⟩

/-- One step of the loop body: from `Idle` the 15-second sleep, from `Running`
    the cycle with the arguments of `StartPrometheusScraper`. -/
def Sched.step (envs : Nat → Env) (url user key : String) (promLogger : Logger)
    (s : Sched) : Sched :=
  match s.phase with
  | Phase.Idle => ⟨Phase.Running, s.cycle, s.trace ++ (timeSleep (15 * Second)).trace⟩
  | Phase.Running =>
    ⟨Phase.Idle, s.cycle + 1,
      s.trace ++ (scrapeAndSendLocalMetrics (envs s.cycle) url user key promLogger).trace⟩

/-- The state after `n` steps from the start of `StartPrometheusScraper`. -/
def Sched.run (envs : Nat → Env) (url user key : String) (logger : Logger) : Nat → Sched
  | 0 => Sched.init
  | n + 1 =>
    Sched.step envs url user key (logger.With [Field.str "component" "prometheus_scraper"])
      (Sched.run envs url user key logger n)

def Event.isSleep : Event → Bool
  | Event.sleep _ => true
  | _ => false

/-! ## Observing a trace -/

/-- The log entries of a trace, in order. -/
def logs (tr : List Event) : List LogEntry :=
  tr.filterMap fun ev => match ev with
    | Event.log entry => some entry
    | _ => none

/-- The requests handed to `http.DefaultClient.Do`, in order. -/
def sent (tr : List Event) : List Request :=
  tr.filterMap fun ev => match ev with
    | Event.clientDo req => some req
    | _ => none

/-- The POST requests handed to `http.DefaultClient.Do`, in order. -/
def posts (tr : List Event) : List Request :=
  (sent tr).filter fun req => req.method == MethodPost

def Event.isConvert : Event → Bool
  | Event.convert _ _ => true
  | _ => false

def Event.isMarshal : Event → Bool
  | Event.marshal _ => true
  | _ => false

/-- The request handed to the HTTP client at the send stage. -/
def postRequest (user key url : String) (body : Bytes) : Request :=
  ⟨"POST", "https://" ++ user ++ ":" ++ key ++ "@" ++ url, some body,
    [("Content-Encoding", "snappy"), ("Content-Type", "application/x-protobuf"),
     ("User-Agent", "Guardian/2.23.12"), ("X-Prometheus-Remote-Write-Version", "0.1.0")]⟩

/-- Changes the status code of every answer to a POST and nothing else. -/
def withPostStatus (env : Env) (s : Int) : Env :=
  ⟨env.newRequestErr,
   fun req => if req.method = "POST" then
       match env.roundTrip req with
       | Except.ok res => Except.ok ⟨s, res.body⟩
       | Except.error e => Except.error e
     else env.roundTrip req,
   env.MetricTextToWriteRequest, env.marshal, env.snappyEncode⟩

/-- The three failure conditions of `scrapeLocalMetrics`. -/
inductive FetchFailure where
  | requestBuild
  | transport
  | bodyRead
  deriving DecidableEq, Repr

/-- The step of `scrapeLocalMetrics` that failed, read off the last action of
    a failing call: the request construction, the GET, or the body read. -/
def failedStep (env : Env) : Option FetchFailure :=
  match (scrapeLocalMetrics env).val, (scrapeLocalMetrics env).trace.getLast? with
  | Except.error _, some (Event.newRequest _ _ _) => some FetchFailure.requestBuild
  | Except.error _, some (Event.clientDo _) => some FetchFailure.transport
  | Except.error _, some (Event.readAll _) => some FetchFailure.bodyRead
  | _, _ => none

def GoError.isURLError : GoError → Bool
  | GoError.urlError _ _ _ => true
  | GoError.plain _ => false

/-- The failure condition an error of `scrapeLocalMetrics` stands for, from
    the error alone: a `*url.Error` of `url.Parse` is a failed request
    construction, any other `*url.Error` a failed transport, and an error that
    is no `*url.Error` a failed body read. -/
def classifyFetchError : GoError → FetchFailure
  | GoError.urlError op _ _ =>
    if op = "parse" then FetchFailure.requestBuild else FetchFailure.transport
  | GoError.plain _ => FetchFailure.bodyRead

/-- The error shapes of net/http for the scrape request.  `http.NewRequest`
    with the method GET can fail only in `url.Parse`, whose error is a
    `*url.Error` with `Op` "parse" and the URL it was given;
    `http.DefaultClient.Do` only returns a `*url.Error`, for a GET with `Op`
    "Get" and the URL of the request; the error of reading the body is not a
    `*url.Error`. -/
def stockFetch (env : Env) : Prop :=
  (∀ e, env.newRequestErr "GET" "http://localhost:6060/metrics" = some e →
    ∃ inner, e = GoError.urlError "parse" "http://localhost:6060/metrics" inner) ∧
  (∀ e, env.roundTrip ⟨"GET", "http://localhost:6060/metrics", none, []⟩ = Except.error e →
    ∃ inner, e = GoError.urlError "Get" "http://localhost:6060/metrics" inner) ∧
  (∀ s b e, env.roundTrip ⟨"GET", "http://localhost:6060/metrics", none, []⟩
      = Except.ok ⟨s, (b, some e)⟩ → e.isURLError = false)

/-! ## Sample environments -/

def sampleErr : GoError := GoError.plain "unexpected EOF"

/-- The error of `Do` when nothing listens on the metrics port. -/
def refusedErr : GoError :=
  GoError.urlError "Get" "http://localhost:6060/metrics"
    (GoError.plain "dial tcp 127.0.0.1:6060: connect: connection refused")

/-- The error of `Do` when the host `h` of the remote endpoint is unknown. -/
def sendErr : GoError :=
  GoError.urlError "Post" "https://u:***@h/p" (GoError.plain "dial tcp: lookup h: no such host")

/-- The error of `http.NewRequest` for a scrape URL that does not parse. -/
def parseErr : GoError :=
  GoError.urlError "parse" "http://localhost:6060/metrics" (GoError.plain "invalid port")

/-- Every call succeeds: the scrape body is empty, the converter gives a
    write-request with no series, the remote endpoint answers 500. -/
def envOK : Env :=
  ⟨fun _ _ => none,
   fun req => if req.method = "GET" then Except.ok ⟨200, ([], none)⟩
     else Except.ok ⟨500, ([], none)⟩,
   fun _ _ => Except.ok ⟨[]⟩,
   fun _ => Except.ok [],
   fun raw => 0 :: raw⟩

/-- The scrape GET is refused. -/
def envFetchFail : Env :=
  ⟨envOK.newRequestErr,
   fun req => if req.method = "GET" then Except.error refusedErr else envOK.roundTrip req,
   envOK.MetricTextToWriteRequest, envOK.marshal, envOK.snappyEncode⟩

/-- The scrape request cannot be constructed. -/
def envGetBuildFail : Env :=
  ⟨fun method _ => if method = "GET" then some parseErr else none, envOK.roundTrip,
   envOK.MetricTextToWriteRequest, envOK.marshal, envOK.snappyEncode⟩

/-- The body of the scrape response cannot be read. -/
def envReadFail : Env :=
  ⟨envOK.newRequestErr, fun _ => Except.ok ⟨200, ([], some sampleErr)⟩,
   envOK.MetricTextToWriteRequest, envOK.marshal, envOK.snappyEncode⟩

/-- The converter rejects the scrape body. -/
def envConvertFail : Env :=
  ⟨envOK.newRequestErr, envOK.roundTrip, fun _ _ => Except.error sampleErr,
   envOK.marshal, envOK.snappyEncode⟩

/-- Marshalling the write-request fails. -/
def envMarshalFail : Env :=
  ⟨envOK.newRequestErr, envOK.roundTrip, envOK.MetricTextToWriteRequest,
   fun _ => Except.error sampleErr, envOK.snappyEncode⟩

/-- The POST request cannot be constructed. -/
def envBuildFail : Env :=
  ⟨fun method _ => if method = "POST" then some sampleErr else none, envOK.roundTrip,
   envOK.MetricTextToWriteRequest, envOK.marshal, envOK.snappyEncode⟩

/-- The scrape GET is answered 404 with a two-byte body. -/
def envNotFound : Env :=
  ⟨envOK.newRequestErr, fun _ => Except.ok ⟨404, ([117, 112], none)⟩,
   envOK.MetricTextToWriteRequest, envOK.marshal, envOK.snappyEncode⟩

/-- The remote endpoint `https://u:k@h/p` cannot be reached. -/
def envSendFail : Env :=
  ⟨envOK.newRequestErr,
   fun req => if req.method = "GET" then Except.ok ⟨200, ([], none)⟩
     else Except.error sendErr,
   envOK.MetricTextToWriteRequest, envOK.marshal, envOK.snappyEncode⟩

/-! ## Basic facts -/

theorem metricsURL_eq : metricsURL = "http://localhost:6060/metrics" := by decide

theorem scrape_build_fail (env : Env) (e : GoError)
    (h : env.newRequestErr "GET" "http://localhost:6060/metrics" = some e) :
    scrapeLocalMetrics env =
      ⟨Except.error e, [Event.newRequest "GET" "http://localhost:6060/metrics" none]⟩ := by
  unfold scrapeLocalMetrics httpNewRequest emit
  simp only [metricsURL_eq, MethodGet, h]
  rfl

theorem scrape_transport_fail (env : Env) (e : GoError)
    (h1 : env.newRequestErr "GET" "http://localhost:6060/metrics" = none)
    (h2 : env.roundTrip ⟨"GET", "http://localhost:6060/metrics", none, []⟩ = Except.error e) :
    scrapeLocalMetrics env =
      ⟨Except.error e, [Event.newRequest "GET" "http://localhost:6060/metrics" none,
        Event.clientDo ⟨"GET", "http://localhost:6060/metrics", none, []⟩]⟩ := by
  unfold scrapeLocalMetrics httpNewRequest clientDo emit
  simp only [metricsURL_eq, MethodGet]
  simp [bind, pure, h1, h2]

theorem scrape_read_fail (env : Env) (s : Int) (b : Bytes) (e : GoError)
    (h1 : env.newRequestErr "GET" "http://localhost:6060/metrics" = none)
    (h2 : env.roundTrip ⟨"GET", "http://localhost:6060/metrics", none, []⟩
      = Except.ok ⟨s, (b, some e)⟩) :
    scrapeLocalMetrics env =
      ⟨Except.error e, [Event.newRequest "GET" "http://localhost:6060/metrics" none,
        Event.clientDo ⟨"GET", "http://localhost:6060/metrics", none, []⟩,
        Event.readAll ⟨s, (b, some e)⟩]⟩ := by
  unfold scrapeLocalMetrics httpNewRequest clientDo ioReadAll emit
  simp only [metricsURL_eq, MethodGet]
  simp [bind, pure, h1, h2]

theorem scrape_ok (env : Env) (s : Int) (b : Bytes)
    (h1 : env.newRequestErr "GET" "http://localhost:6060/metrics" = none)
    (h2 : env.roundTrip ⟨"GET", "http://localhost:6060/metrics", none, []⟩
      = Except.ok ⟨s, (b, none)⟩) :
    scrapeLocalMetrics env =
      ⟨Except.ok b, [Event.newRequest "GET" "http://localhost:6060/metrics" none,
        Event.clientDo ⟨"GET", "http://localhost:6060/metrics", none, []⟩,
        Event.readAll ⟨s, (b, none)⟩]⟩ := by
  unfold scrapeLocalMetrics httpNewRequest clientDo ioReadAll emit
  simp only [metricsURL_eq, MethodGet]
  simp [bind, pure, h1, h2]

/-- The four ways a call of `scrapeLocalMetrics` can go. -/
theorem scrape_cases (env : Env) :
    (∃ e, env.newRequestErr "GET" "http://localhost:6060/metrics" = some e) ∨
    (env.newRequestErr "GET" "http://localhost:6060/metrics" = none ∧
      ∃ e, env.roundTrip ⟨"GET", "http://localhost:6060/metrics", none, []⟩ = Except.error e) ∨
    (env.newRequestErr "GET" "http://localhost:6060/metrics" = none ∧
      ∃ s b e, env.roundTrip ⟨"GET", "http://localhost:6060/metrics", none, []⟩
        = Except.ok ⟨s, (b, some e)⟩) ∨
    (env.newRequestErr "GET" "http://localhost:6060/metrics" = none ∧
      ∃ s b, env.roundTrip ⟨"GET", "http://localhost:6060/metrics", none, []⟩
        = Except.ok ⟨s, (b, none)⟩) := by
  cases h1 : env.newRequestErr "GET" "http://localhost:6060/metrics" with
  | some e => exact Or.inl ⟨e, rfl⟩
  | none =>
    cases h2 : env.roundTrip ⟨"GET", "http://localhost:6060/metrics", none, []⟩ with
    | error e => exact Or.inr (Or.inl ⟨rfl, e, rfl⟩)
    | ok res =>
      obtain ⟨s, b, r⟩ := res
      cases r with
      | some e => exact Or.inr (Or.inr (Or.inl ⟨rfl, s, b, e, rfl⟩))
      | none => exact Or.inr (Or.inr (Or.inr ⟨rfl, s, b, rfl⟩))

/-- Every event of `scrapeLocalMetrics` is the construction of the GET, the
    GET itself, or the read of its response. -/
theorem scrape_events (env : Env) (ev : Event) (h : ev ∈ (scrapeLocalMetrics env).trace) :
    ev = Event.newRequest "GET" "http://localhost:6060/metrics" none ∨
    ev = Event.clientDo ⟨"GET", "http://localhost:6060/metrics", none, []⟩ ∨
    ∃ res, ev = Event.readAll res := by
  rcases scrape_cases env with ⟨e, h1⟩ | ⟨h1, e, h2⟩ | ⟨h1, s, b, e, h2⟩ | ⟨h1, s, b, h2⟩
  · rw [scrape_build_fail env e h1] at h
    simp at h
    exact Or.inl h
  · rw [scrape_transport_fail env e h1 h2] at h
    simp at h
    rcases h with h | h
    · exact Or.inl h
    · exact Or.inr (Or.inl h)
  · rw [scrape_read_fail env s b e h1 h2] at h
    simp at h
    rcases h with h | h | h
    · exact Or.inl h
    · exact Or.inr (Or.inl h)
    · exact Or.inr (Or.inr ⟨_, h⟩)
  · rw [scrape_ok env s b h1 h2] at h
    simp at h
    rcases h with h | h | h
    · exact Or.inl h
    · exact Or.inr (Or.inl h)
    · exact Or.inr (Or.inr ⟨_, h⟩)

theorem scrape_logs (env : Env) : logs (scrapeLocalMetrics env).trace = [] := by
  rcases scrape_cases env with ⟨e, h1⟩ | ⟨h1, e, h2⟩ | ⟨h1, s, b, e, h2⟩ | ⟨h1, s, b, h2⟩
  · rw [scrape_build_fail env e h1]; rfl
  · rw [scrape_transport_fail env e h1 h2]; rfl
  · rw [scrape_read_fail env s b e h1 h2]; rfl
  · rw [scrape_ok env s b h1 h2]; rfl

theorem scrape_posts (env : Env) : posts (scrapeLocalMetrics env).trace = [] := by
  rcases scrape_cases env with ⟨e, h1⟩ | ⟨h1, e, h2⟩ | ⟨h1, s, b, e, h2⟩ | ⟨h1, s, b, h2⟩
  · rw [scrape_build_fail env e h1]; rfl
  · rw [scrape_transport_fail env e h1 h2]; simp [posts, sent, MethodPost]
  · rw [scrape_read_fail env s b e h1 h2]; simp [posts, sent, MethodPost]
  · rw [scrape_ok env s b h1 h2]; simp [posts, sent, MethodPost]

theorem headers_eq (user key url : String) (body : Bytes) :
    headerSet (headerSet (headerSet (headerSet
      ⟨MethodPost, requestURL user key url, some body, []⟩
      "Content-Encoding" "snappy") "Content-Type" "application/x-protobuf")
      "User-Agent" "Guardian/2.23.12") "X-Prometheus-Remote-Write-Version" "0.1.0"
    = postRequest user key url body := by
  rfl

theorem cycle_fetch_fail (env : Env) (url user key : String) (logger : Logger) (e : GoError)
    (hf : (scrapeLocalMetrics env).val = Except.error e) :
    (scrapeAndSendLocalMetrics env url user key logger).trace =
      (scrapeLocalMetrics env).trace ++
        [Event.log ⟨logger.context, Level.error, "Could not scrape local metrics",
          [Field.err e]⟩] := by
  unfold scrapeAndSendLocalMetrics
  simp [bind, pure, hf, Logger.Error, emit]

theorem cycle_convert_fail (env : Env) (url user key : String) (logger : Logger) (b : Bytes)
    (e : GoError) (hf : (scrapeLocalMetrics env).val = Except.ok b)
    (hc : env.MetricTextToWriteRequest b [("node_name", "testNode")] = Except.error e) :
    (scrapeAndSendLocalMetrics env url user key logger).trace =
      (scrapeLocalMetrics env).trace ++
        [Event.convert b [("node_name", "testNode")],
         Event.log ⟨logger.context, Level.error, "Could not create write request",
          [Field.err e]⟩] := by
  unfold scrapeAndSendLocalMetrics
  simp [bind, pure, hf, hc, Logger.Error, emit, convertCall, labels]

theorem cycle_marshal_fail (env : Env) (url user key : String) (logger : Logger) (b : Bytes)
    (wr : WriteRequest) (e : GoError) (hf : (scrapeLocalMetrics env).val = Except.ok b)
    (hc : env.MetricTextToWriteRequest b [("node_name", "testNode")] = Except.ok wr)
    (hm : env.marshal wr = Except.error e) :
    (scrapeAndSendLocalMetrics env url user key logger).trace =
      (scrapeLocalMetrics env).trace ++
        [Event.convert b [("node_name", "testNode")], Event.marshal wr,
         Event.log ⟨logger.context, Level.error, "Could not marshal write request",
          [Field.err e]⟩] := by
  unfold scrapeAndSendLocalMetrics
  simp [bind, pure, hf, hc, hm, Logger.Error, emit, convertCall, marshalCall, labels]

theorem cycle_build_fail (env : Env) (url user key : String) (logger : Logger) (b : Bytes)
    (wr : WriteRequest) (raw : Bytes) (e : GoError)
    (hf : (scrapeLocalMetrics env).val = Except.ok b)
    (hc : env.MetricTextToWriteRequest b [("node_name", "testNode")] = Except.ok wr)
    (hm : env.marshal wr = Except.ok raw)
    (hr : env.newRequestErr "POST" ("https://" ++ user ++ ":" ++ key ++ "@" ++ url) = some e) :
    (scrapeAndSendLocalMetrics env url user key logger).trace =
      (scrapeLocalMetrics env).trace ++
        [Event.convert b [("node_name", "testNode")], Event.marshal wr,
         Event.snappyEncode raw,
         Event.newRequest "POST" ("https://" ++ user ++ ":" ++ key ++ "@" ++ url)
           (some (env.snappyEncode raw)),
         Event.log ⟨logger.context, Level.error, "Could not create request",
          [Field.err e]⟩] := by
  unfold scrapeAndSendLocalMetrics
  simp [bind, pure, hf, hc, hm, hr, Logger.Error, emit, convertCall, marshalCall, labels,
    snappyEncodeCall, httpNewRequest, MethodPost, requestURL]

theorem cycle_send_fail (env : Env) (url user key : String) (logger : Logger) (b : Bytes)
    (wr : WriteRequest) (raw : Bytes) (e : GoError)
    (hf : (scrapeLocalMetrics env).val = Except.ok b)
    (hc : env.MetricTextToWriteRequest b [("node_name", "testNode")] = Except.ok wr)
    (hm : env.marshal wr = Except.ok raw)
    (hr : env.newRequestErr "POST" ("https://" ++ user ++ ":" ++ key ++ "@" ++ url) = none)
    (hd : env.roundTrip (postRequest user key url (env.snappyEncode raw)) = Except.error e) :
    (scrapeAndSendLocalMetrics env url user key logger).trace =
      (scrapeLocalMetrics env).trace ++
        [Event.convert b [("node_name", "testNode")], Event.marshal wr,
         Event.snappyEncode raw,
         Event.newRequest "POST" ("https://" ++ user ++ ":" ++ key ++ "@" ++ url)
           (some (env.snappyEncode raw)),
         Event.clientDo (postRequest user key url (env.snappyEncode raw)),
         Event.log ⟨logger.context, Level.error, "Error creating http request",
          [Field.err e]⟩] := by
  have hd' := hd
  rw [← headers_eq] at hd'
  unfold scrapeAndSendLocalMetrics
  simp only [MethodPost, requestURL] at hd'
  simp [bind, pure, hf, hc, hm, hr, hd', Logger.Error, emit, convertCall, marshalCall, labels,
    snappyEncodeCall, httpNewRequest, MethodPost, requestURL, clientDo]
  rfl

theorem cycle_ok (env : Env) (url user key : String) (logger : Logger) (b : Bytes)
    (wr : WriteRequest) (raw : Bytes) (res : Response)
    (hf : (scrapeLocalMetrics env).val = Except.ok b)
    (hc : env.MetricTextToWriteRequest b [("node_name", "testNode")] = Except.ok wr)
    (hm : env.marshal wr = Except.ok raw)
    (hr : env.newRequestErr "POST" ("https://" ++ user ++ ":" ++ key ++ "@" ++ url) = none)
    (hd : env.roundTrip (postRequest user key url (env.snappyEncode raw)) = Except.ok res) :
    (scrapeAndSendLocalMetrics env url user key logger).trace =
      (scrapeLocalMetrics env).trace ++
        [Event.convert b [("node_name", "testNode")], Event.marshal wr,
         Event.snappyEncode raw,
         Event.newRequest "POST" ("https://" ++ user ++ ":" ++ key ++ "@" ++ url)
           (some (env.snappyEncode raw)),
         Event.clientDo (postRequest user key url (env.snappyEncode raw)),
         Event.log ⟨logger.context, Level.debug, "Grafana result",
          [Field.int "status code" res.statusCode]⟩] := by
  have hd' := hd
  rw [← headers_eq] at hd'
  unfold scrapeAndSendLocalMetrics
  simp only [MethodPost, requestURL] at hd'
  simp [bind, pure, hf, hc, hm, hr, hd', Logger.Error, Logger.Debug, emit, convertCall,
    marshalCall, labels, snappyEncodeCall, httpNewRequest, MethodPost, requestURL, clientDo]
  rfl

theorem posts_append (xs ys : List Event) : posts (xs ++ ys) = posts xs ++ posts ys := by
  simp [posts, sent]

theorem logs_append (xs ys : List Event) : logs (xs ++ ys) = logs xs ++ logs ys := by
  simp [logs]

theorem scrape_no_convert (env : Env) :
    (scrapeLocalMetrics env).trace.filter Event.isConvert = [] := by
  rw [List.filter_eq_nil_iff]
  intro ev h
  rcases scrape_events env ev h with h | h | ⟨res, h⟩ <;> subst h <;> simp [Event.isConvert]

theorem scrape_no_marshal (env : Env) :
    (scrapeLocalMetrics env).trace.filter Event.isMarshal = [] := by
  rw [List.filter_eq_nil_iff]
  intro ev h
  rcases scrape_events env ev h with h | h | ⟨res, h⟩ <;> subst h <;> simp [Event.isMarshal]

/-- The stage at which a cycle ends, read off the answers of the environment. -/
theorem stage_cases (env : Env) (url user key : String) :
    (∃ e, (scrapeLocalMetrics env).val = Except.error e) ∨
    (∃ b e, (scrapeLocalMetrics env).val = Except.ok b ∧
      env.MetricTextToWriteRequest b [("node_name", "testNode")] = Except.error e) ∨
    (∃ b wr e, (scrapeLocalMetrics env).val = Except.ok b ∧
      env.MetricTextToWriteRequest b [("node_name", "testNode")] = Except.ok wr ∧
      env.marshal wr = Except.error e) ∨
    (∃ b wr raw e, (scrapeLocalMetrics env).val = Except.ok b ∧
      env.MetricTextToWriteRequest b [("node_name", "testNode")] = Except.ok wr ∧
      env.marshal wr = Except.ok raw ∧
      env.newRequestErr "POST" ("https://" ++ user ++ ":" ++ key ++ "@" ++ url) = some e) ∨
    (∃ b wr raw e, (scrapeLocalMetrics env).val = Except.ok b ∧
      env.MetricTextToWriteRequest b [("node_name", "testNode")] = Except.ok wr ∧
      env.marshal wr = Except.ok raw ∧
      env.newRequestErr "POST" ("https://" ++ user ++ ":" ++ key ++ "@" ++ url) = none ∧
      env.roundTrip (postRequest user key url (env.snappyEncode raw)) = Except.error e) ∨
    (∃ b wr raw res, (scrapeLocalMetrics env).val = Except.ok b ∧
      env.MetricTextToWriteRequest b [("node_name", "testNode")] = Except.ok wr ∧
      env.marshal wr = Except.ok raw ∧
      env.newRequestErr "POST" ("https://" ++ user ++ ":" ++ key ++ "@" ++ url) = none ∧
      env.roundTrip (postRequest user key url (env.snappyEncode raw)) = Except.ok res) := by
  cases hf : (scrapeLocalMetrics env).val with
  | error e => exact Or.inl ⟨e, rfl⟩
  | ok b =>
    cases hc : env.MetricTextToWriteRequest b [("node_name", "testNode")] with
    | error e => exact Or.inr (Or.inl ⟨b, e, rfl, hc⟩)
    | ok wr =>
      cases hm : env.marshal wr with
      | error e => exact Or.inr (Or.inr (Or.inl ⟨b, wr, e, rfl, hc, hm⟩))
      | ok raw =>
        cases hr : env.newRequestErr "POST" ("https://" ++ user ++ ":" ++ key ++ "@" ++ url) with
        | some e => exact Or.inr (Or.inr (Or.inr (Or.inl ⟨b, wr, raw, e, rfl, hc, hm, rfl⟩)))
        | none =>
          cases hd : env.roundTrip (postRequest user key url (env.snappyEncode raw)) with
          | error e =>
            exact Or.inr (Or.inr (Or.inr (Or.inr (Or.inl ⟨b, wr, raw, e, rfl, hc, hm, rfl, hd⟩))))
          | ok res =>
            exact Or.inr (Or.inr (Or.inr (Or.inr (Or.inr ⟨b, wr, raw, res, rfl, hc, hm, rfl, hd⟩))))

/-! ## The claims -/

/-- C1: a failure at any stage aborts the rest of the cycle.  If
    `scrapeLocalMetrics` returns an error, the cycle calls neither the converter
    nor `Marshal` and hands no POST to the HTTP client; if the converter returns
    an error, no `Marshal` and no POST; if `Marshal` returns an error, or the
    construction of the POST request fails, no POST. -/
theorem failure_aborts_cycle (env : Env) (url user key : String) (logger : Logger) :
    ((∃ e, (scrapeLocalMetrics env).val = Except.error e) →
      (scrapeAndSendLocalMetrics env url user key logger).trace.filter Event.isConvert = [] ∧
      (scrapeAndSendLocalMetrics env url user key logger).trace.filter Event.isMarshal = [] ∧
      posts (scrapeAndSendLocalMetrics env url user key logger).trace = []) ∧
    (∀ b e, (scrapeLocalMetrics env).val = Except.ok b →
      env.MetricTextToWriteRequest b [("node_name", "testNode")] = Except.error e →
      (scrapeAndSendLocalMetrics env url user key logger).trace.filter Event.isMarshal = [] ∧
      posts (scrapeAndSendLocalMetrics env url user key logger).trace = []) ∧
    (∀ b wr e, (scrapeLocalMetrics env).val = Except.ok b →
      env.MetricTextToWriteRequest b [("node_name", "testNode")] = Except.ok wr →
      env.marshal wr = Except.error e →
      posts (scrapeAndSendLocalMetrics env url user key logger).trace = []) ∧
    (∀ b wr raw e, (scrapeLocalMetrics env).val = Except.ok b →
      env.MetricTextToWriteRequest b [("node_name", "testNode")] = Except.ok wr →
      env.marshal wr = Except.ok raw →
      env.newRequestErr "POST" ("https://" ++ user ++ ":" ++ key ++ "@" ++ url) = some e →
      posts (scrapeAndSendLocalMetrics env url user key logger).trace = []) := by
  refine ⟨?_, ?_, ?_, ?_⟩
  · rintro ⟨e, hf⟩
    rw [cycle_fetch_fail env url user key logger e hf, List.filter_append, List.filter_append,
      posts_append, scrape_no_convert, scrape_no_marshal, scrape_posts]
    exact ⟨rfl, rfl, rfl⟩
  · intro b e hf hc
    rw [cycle_convert_fail env url user key logger b e hf hc, List.filter_append,
      posts_append, scrape_no_marshal, scrape_posts]
    exact ⟨rfl, rfl⟩
  · intro b wr e hf hc hm
    rw [cycle_marshal_fail env url user key logger b wr e hf hc hm, posts_append, scrape_posts]
    rfl
  · intro b wr raw e hf hc hm hr
    rw [cycle_build_fail env url user key logger b wr raw e hf hc hm hr, posts_append,
      scrape_posts]
    rfl

/-- Witness for C1: a refused scrape, a rejected scrape body, a failed
    marshalling and a failed request construction, each without a POST. -/
theorem failure_aborts_cycle_witness :
    ((scrapeAndSendLocalMetrics envFetchFail "h/p" "u" "k" ⟨[]⟩).trace.filter Event.isConvert = [] ∧
      (scrapeAndSendLocalMetrics envFetchFail "h/p" "u" "k" ⟨[]⟩).trace.filter Event.isMarshal = [] ∧
      posts (scrapeAndSendLocalMetrics envFetchFail "h/p" "u" "k" ⟨[]⟩).trace = []) ∧
    ((scrapeAndSendLocalMetrics envConvertFail "h/p" "u" "k" ⟨[]⟩).trace.filter Event.isMarshal = [] ∧
      posts (scrapeAndSendLocalMetrics envConvertFail "h/p" "u" "k" ⟨[]⟩).trace = []) ∧
    posts (scrapeAndSendLocalMetrics envMarshalFail "h/p" "u" "k" ⟨[]⟩).trace = [] ∧
    posts (scrapeAndSendLocalMetrics envBuildFail "h/p" "u" "k" ⟨[]⟩).trace = [] :=
  ⟨(failure_aborts_cycle envFetchFail "h/p" "u" "k" ⟨[]⟩).1 ⟨refusedErr, rfl⟩,
   (failure_aborts_cycle envConvertFail "h/p" "u" "k" ⟨[]⟩).2.1 [] sampleErr rfl rfl,
   (failure_aborts_cycle envMarshalFail "h/p" "u" "k" ⟨[]⟩).2.2.1 [] ⟨[]⟩ sampleErr rfl rfl rfl,
   (failure_aborts_cycle envBuildFail "h/p" "u" "k" ⟨[]⟩).2.2.2 [] ⟨[]⟩ [] sampleErr
     rfl rfl rfl rfl⟩

/-- C2: when the fetch returns `b`, the conversion of `b` with the label set
    `node_name = testNode` gives `wr`, marshalling `wr` gives `raw` and the POST
    request can be constructed, the converter is called once, on exactly `b`
    and that label set, and exactly one POST is attempted, whose body is
    `snappy.Encode(raw)`. -/
theorem success_posts_encoded_payload (env : Env) (url user key : String) (logger : Logger)
    (b : Bytes) (wr : WriteRequest) (raw : Bytes)
    (hf : (scrapeLocalMetrics env).val = Except.ok b)
    (hc : env.MetricTextToWriteRequest b [("node_name", "testNode")] = Except.ok wr)
    (hm : env.marshal wr = Except.ok raw)
    (hr : env.newRequestErr "POST" ("https://" ++ user ++ ":" ++ key ++ "@" ++ url) = none) :
    (scrapeAndSendLocalMetrics env url user key logger).trace.filter Event.isConvert
      = [Event.convert b [("node_name", "testNode")]] ∧
    ∃ req, posts (scrapeAndSendLocalMetrics env url user key logger).trace = [req] ∧
      req.body = some (env.snappyEncode raw) := by
  cases hd : env.roundTrip (postRequest user key url (env.snappyEncode raw)) with
  | error e =>
    rw [cycle_send_fail env url user key logger b wr raw e hf hc hm hr hd]
    refine ⟨?_, postRequest user key url (env.snappyEncode raw), ?_, rfl⟩
    · rw [List.filter_append, scrape_no_convert]
      simp [Event.isConvert]
    · rw [posts_append, scrape_posts]
      simp [posts, sent, postRequest, MethodPost]
  | ok res =>
    rw [cycle_ok env url user key logger b wr raw res hf hc hm hr hd]
    refine ⟨?_, postRequest user key url (env.snappyEncode raw), ?_, rfl⟩
    · rw [List.filter_append, scrape_no_convert]
      simp [Event.isConvert]
    · rw [posts_append, scrape_posts]
      simp [posts, sent, postRequest, MethodPost]

/-- Witness for C2: an empty scrape body and a write-request with no series;
    the POST is still attempted. -/
theorem success_posts_encoded_payload_witness :
    (scrapeAndSendLocalMetrics envOK "h/p" "u" "k" ⟨[]⟩).trace.filter Event.isConvert
      = [Event.convert [] [("node_name", "testNode")]] ∧
    ∃ req, posts (scrapeAndSendLocalMetrics envOK "h/p" "u" "k" ⟨[]⟩).trace = [req] ∧
      req.body = some (envOK.snappyEncode []) :=
  success_posts_encoded_payload envOK "h/p" "u" "k" ⟨[]⟩ [] ⟨[]⟩ [] rfl rfl rfl rfl

theorem scrape_withPostStatus (env : Env) (s : Int) :
    scrapeLocalMetrics (withPostStatus env s) = scrapeLocalMetrics env := by
  unfold scrapeLocalMetrics httpNewRequest clientDo ioReadAll emit
  simp only [metricsURL_eq, MethodGet]
  cases h1 : env.newRequestErr "GET" "http://localhost:6060/metrics" with
  | some e => simp [bind, pure, h1, withPostStatus]
  | none => simp [bind, pure, h1, withPostStatus]

/-- What a cycle does after the fetch: each event is a POST-request
    construction, a POST of the request with the four headers, a log entry, or
    a call of the converter, the marshaller or the encoder. -/
theorem cycle_rest (env : Env) (url user key : String) (logger : Logger) :
    ∃ rest, (scrapeAndSendLocalMetrics env url user key logger).trace
        = (scrapeLocalMetrics env).trace ++ rest ∧
      (∀ m u body, Event.newRequest m u body ∈ rest →
        m = "POST" ∧ u = "https://" ++ user ++ ":" ++ key ++ "@" ++ url) ∧
      (∀ req, Event.clientDo req ∈ rest → ∃ body, req = postRequest user key url body) := by
  rcases stage_cases env url user key with ⟨e, hf⟩ | ⟨b, e, hf, hc⟩ | ⟨b, wr, e, hf, hc, hm⟩ |
    ⟨b, wr, raw, e, hf, hc, hm, hr⟩ | ⟨b, wr, raw, e, hf, hc, hm, hr, hd⟩ |
    ⟨b, wr, raw, res, hf, hc, hm, hr, hd⟩
  · exact ⟨_, cycle_fetch_fail env url user key logger e hf, by simp, by simp⟩
  · exact ⟨_, cycle_convert_fail env url user key logger b e hf hc, by simp, by simp⟩
  · exact ⟨_, cycle_marshal_fail env url user key logger b wr e hf hc hm, by simp, by simp⟩
  · refine ⟨_, cycle_build_fail env url user key logger b wr raw e hf hc hm hr, ?_, by simp⟩
    intro m u body h
    simp at h
    exact ⟨h.1, h.2.1⟩
  · refine ⟨_, cycle_send_fail env url user key logger b wr raw e hf hc hm hr hd, ?_, ?_⟩
    · intro m u body h
      simp at h
      exact ⟨h.1, h.2.1⟩
    · intro req h
      simp at h
      exact ⟨_, h⟩
  · refine ⟨_, cycle_ok env url user key logger b wr raw res hf hc hm hr hd, ?_, ?_⟩
    · intro m u body h
      simp at h
      exact ⟨h.1, h.2.1⟩
    · intro req h
      simp at h
      exact ⟨_, h⟩

/-- C3: every POST request that a cycle hands to the HTTP client carries
    exactly the four headers Content-Encoding = snappy, Content-Type =
    application/x-protobuf, User-Agent = Guardian/2.23.12 and
    X-Prometheus-Remote-Write-Version = 0.1.0, whatever the payload and the
    credentials. -/
theorem post_headers_fixed (env : Env) (url user key : String) (logger : Logger)
    (req : Request)
    (h : Event.clientDo req ∈ (scrapeAndSendLocalMetrics env url user key logger).trace)
    (hp : req.method = "POST") :
    req.header =
      [("Content-Encoding", "snappy"), ("Content-Type", "application/x-protobuf"),
       ("User-Agent", "Guardian/2.23.12"), ("X-Prometheus-Remote-Write-Version", "0.1.0")] := by
  obtain ⟨rest, htr, -, hdo⟩ := cycle_rest env url user key logger
  rw [htr, List.mem_append] at h
  rcases h with h | h
  · rcases scrape_events env _ h with h | h | ⟨res, h⟩
    · cases h
    · injection h with h
      subst h
      simp at hp
    · cases h
  · obtain ⟨body, hb⟩ := hdo req h
    subst hb
    rfl

/-- Witness for C3: the POST of a cycle in which every call succeeds. -/
theorem post_headers_fixed_witness :
    Event.clientDo (postRequest "u" "k" "h/p" [0]) ∈
      (scrapeAndSendLocalMetrics envOK "h/p" "u" "k" ⟨[]⟩).trace ∧
    (postRequest "u" "k" "h/p" [0]).header =
      [("Content-Encoding", "snappy"), ("Content-Type", "application/x-protobuf"),
       ("User-Agent", "Guardian/2.23.12"), ("X-Prometheus-Remote-Write-Version", "0.1.0")] :=
  ⟨by decide, post_headers_fixed envOK "h/p" "u" "k" ⟨[]⟩ (postRequest "u" "k" "h/p" [0])
    (by decide) rfl⟩

/-- C4: after the fetch, every request a cycle constructs and every request it
    hands to the HTTP client has method POST and the target URL
    `"https://" ++ user ++ ":" ++ key ++ "@" ++ url`; and when the fetch, the
    conversion and the marshalling succeed such a request is constructed, with
    the encoded payload as its body. -/
theorem post_target_url (env : Env) (url user key : String) (logger : Logger) :
    ∃ rest, (scrapeAndSendLocalMetrics env url user key logger).trace
        = (scrapeLocalMetrics env).trace ++ rest ∧
      (∀ m u body, Event.newRequest m u body ∈ rest →
        m = "POST" ∧ u = "https://" ++ user ++ ":" ++ key ++ "@" ++ url) ∧
      (∀ req, Event.clientDo req ∈ rest →
        req.method = "POST" ∧ req.url = "https://" ++ user ++ ":" ++ key ++ "@" ++ url) ∧
      (∀ b wr raw, (scrapeLocalMetrics env).val = Except.ok b →
        env.MetricTextToWriteRequest b [("node_name", "testNode")] = Except.ok wr →
        env.marshal wr = Except.ok raw →
        Event.newRequest "POST" ("https://" ++ user ++ ":" ++ key ++ "@" ++ url)
          (some (env.snappyEncode raw)) ∈ rest) := by
  obtain ⟨rest, htr, hnew, hdo⟩ := cycle_rest env url user key logger
  refine ⟨rest, htr, hnew, ?_, ?_⟩
  · intro req h
    obtain ⟨body, hb⟩ := hdo req h
    subst hb
    exact ⟨rfl, rfl⟩
  · intro b wr raw hf hc hm
    have key_fact : Event.newRequest "POST" ("https://" ++ user ++ ":" ++ key ++ "@" ++ url)
        (some (env.snappyEncode raw)) ∈
        (scrapeAndSendLocalMetrics env url user key logger).trace := by
      cases hr : env.newRequestErr "POST" ("https://" ++ user ++ ":" ++ key ++ "@" ++ url) with
      | some e =>
        rw [cycle_build_fail env url user key logger b wr raw e hf hc hm hr]
        simp
      | none =>
        cases hd : env.roundTrip (postRequest user key url (env.snappyEncode raw)) with
        | error e =>
          rw [cycle_send_fail env url user key logger b wr raw e hf hc hm hr hd]
          simp
        | ok res =>
          rw [cycle_ok env url user key logger b wr raw res hf hc hm hr hd]
          simp
    rw [htr, List.mem_append] at key_fact
    rcases key_fact with h | h
    · rcases scrape_events env _ h with h | h | ⟨res, h⟩
      · injection h with h1 h2 h3
        simp at h1
      · cases h
      · cases h
    · exact h

/-- Witness for C4: with user `u`, key `k` and endpoint `h/p` the POST goes to
    `https://u:k@h/p`. -/
theorem post_target_url_witness :
    Event.newRequest "POST" "https://u:k@h/p" (some [0]) ∈
      (scrapeAndSendLocalMetrics envOK "h/p" "u" "k" ⟨[]⟩).trace := by
  obtain ⟨rest, htr, -, -, h⟩ := post_target_url envOK "h/p" "u" "k" ⟨[]⟩
  rw [htr]
  exact List.mem_append_right _ (h [] ⟨[]⟩ [] rfl rfl rfl)

/-- C6: when the POST transport succeeds with a response of status `s`, the
    cycle ends with one debug entry carrying `s`, which is its only log entry;
    and with any other status code in that response the cycle performs the same
    actions, except that the entry carries the other status. -/
theorem status_only_logged (env : Env) (url user key : String) (logger : Logger)
    (b : Bytes) (wr : WriteRequest) (raw : Bytes) (res : Response)
    (hf : (scrapeLocalMetrics env).val = Except.ok b)
    (hc : env.MetricTextToWriteRequest b [("node_name", "testNode")] = Except.ok wr)
    (hm : env.marshal wr = Except.ok raw)
    (hr : env.newRequestErr "POST" ("https://" ++ user ++ ":" ++ key ++ "@" ++ url) = none)
    (hd : env.roundTrip (postRequest user key url (env.snappyEncode raw)) = Except.ok res) :
    logs (scrapeAndSendLocalMetrics env url user key logger).trace =
      [⟨logger.context, Level.debug, "Grafana result",
        [Field.int "status code" res.statusCode]⟩] ∧
    ∃ pre, logs pre = [] ∧
      (scrapeAndSendLocalMetrics env url user key logger).trace =
        pre ++ [Event.log ⟨logger.context, Level.debug, "Grafana result",
          [Field.int "status code" res.statusCode]⟩] ∧
      ∀ s : Int, (scrapeAndSendLocalMetrics (withPostStatus env s) url user key logger).trace =
        pre ++ [Event.log ⟨logger.context, Level.debug, "Grafana result",
          [Field.int "status code" s]⟩] := by
  refine ⟨?_, (scrapeLocalMetrics env).trace ++
      [Event.convert b [("node_name", "testNode")], Event.marshal wr, Event.snappyEncode raw,
       Event.newRequest "POST" ("https://" ++ user ++ ":" ++ key ++ "@" ++ url)
         (some (env.snappyEncode raw)),
       Event.clientDo (postRequest user key url (env.snappyEncode raw))], ?_, ?_, ?_⟩
  · rw [cycle_ok env url user key logger b wr raw res hf hc hm hr hd, logs_append, scrape_logs]
    rfl
  · rw [logs_append, scrape_logs]
    rfl
  · rw [cycle_ok env url user key logger b wr raw res hf hc hm hr hd]
    simp
  · intro s
    have hd' : (withPostStatus env s).roundTrip
        (postRequest user key url ((withPostStatus env s).snappyEncode raw))
        = Except.ok ⟨s, res.body⟩ := by
      show (if (postRequest user key url (env.snappyEncode raw)).method = "POST" then
        (match env.roundTrip (postRequest user key url (env.snappyEncode raw)) with
          | Except.ok res => Except.ok ⟨s, res.body⟩
          | Except.error e => Except.error e)
        else env.roundTrip (postRequest user key url (env.snappyEncode raw))) = _
      rw [hd]
      rfl
    have hf' : (scrapeLocalMetrics (withPostStatus env s)).val = Except.ok b := by
      rw [scrape_withPostStatus]
      exact hf
    rw [cycle_ok (withPostStatus env s) url user key logger b wr raw ⟨s, res.body⟩ hf' hc hm hr
      hd', scrape_withPostStatus]
    simp [withPostStatus]

/-- Witness for C6: the remote endpoint answers 500, and the same cycle with
    the answer 200. -/
theorem status_only_logged_witness :
    logs (scrapeAndSendLocalMetrics envOK "h/p" "u" "k" ⟨[]⟩).trace =
      [⟨[], Level.debug, "Grafana result", [Field.int "status code" 500]⟩] ∧
    logs (scrapeAndSendLocalMetrics (withPostStatus envOK 200) "h/p" "u" "k" ⟨[]⟩).trace =
      [⟨[], Level.debug, "Grafana result", [Field.int "status code" 200]⟩] := by
  obtain ⟨h500, pre, hpre, -, hall⟩ :=
    status_only_logged envOK "h/p" "u" "k" ⟨[]⟩ [] ⟨[]⟩ [] ⟨500, ([], none)⟩
      rfl rfl rfl rfl rfl
  refine ⟨h500, ?_⟩
  rw [hall 200, logs_append, hpre]
  rfl

/-- C8: a cycle that fails emits exactly one log entry, at error level, which
    carries the error of the failing step, with a message that tells the five
    failure points apart. -/
theorem failure_logs_one_error (env : Env) (url user key : String) (logger : Logger) :
    (∀ e, (scrapeLocalMetrics env).val = Except.error e →
      logs (scrapeAndSendLocalMetrics env url user key logger).trace =
        [⟨logger.context, Level.error, "Could not scrape local metrics", [Field.err e]⟩]) ∧
    (∀ b e, (scrapeLocalMetrics env).val = Except.ok b →
      env.MetricTextToWriteRequest b [("node_name", "testNode")] = Except.error e →
      logs (scrapeAndSendLocalMetrics env url user key logger).trace =
        [⟨logger.context, Level.error, "Could not create write request", [Field.err e]⟩]) ∧
    (∀ b wr e, (scrapeLocalMetrics env).val = Except.ok b →
      env.MetricTextToWriteRequest b [("node_name", "testNode")] = Except.ok wr →
      env.marshal wr = Except.error e →
      logs (scrapeAndSendLocalMetrics env url user key logger).trace =
        [⟨logger.context, Level.error, "Could not marshal write request", [Field.err e]⟩]) ∧
    (∀ b wr raw e, (scrapeLocalMetrics env).val = Except.ok b →
      env.MetricTextToWriteRequest b [("node_name", "testNode")] = Except.ok wr →
      env.marshal wr = Except.ok raw →
      env.newRequestErr "POST" ("https://" ++ user ++ ":" ++ key ++ "@" ++ url) = some e →
      logs (scrapeAndSendLocalMetrics env url user key logger).trace =
        [⟨logger.context, Level.error, "Could not create request", [Field.err e]⟩]) ∧
    (∀ b wr raw e, (scrapeLocalMetrics env).val = Except.ok b →
      env.MetricTextToWriteRequest b [("node_name", "testNode")] = Except.ok wr →
      env.marshal wr = Except.ok raw →
      env.newRequestErr "POST" ("https://" ++ user ++ ":" ++ key ++ "@" ++ url) = none →
      env.roundTrip (postRequest user key url (env.snappyEncode raw)) = Except.error e →
      logs (scrapeAndSendLocalMetrics env url user key logger).trace =
        [⟨logger.context, Level.error, "Error creating http request", [Field.err e]⟩]) ∧
    ["Could not scrape local metrics", "Could not create write request",
      "Could not marshal write request", "Could not create request",
      "Error creating http request"].Nodup := by
  refine ⟨?_, ?_, ?_, ?_, ?_, by decide⟩
  · intro e hf
    rw [cycle_fetch_fail env url user key logger e hf, logs_append, scrape_logs]
    rfl
  · intro b e hf hc
    rw [cycle_convert_fail env url user key logger b e hf hc, logs_append, scrape_logs]
    rfl
  · intro b wr e hf hc hm
    rw [cycle_marshal_fail env url user key logger b wr e hf hc hm, logs_append, scrape_logs]
    rfl
  · intro b wr raw e hf hc hm hr
    rw [cycle_build_fail env url user key logger b wr raw e hf hc hm hr, logs_append,
      scrape_logs]
    rfl
  · intro b wr raw e hf hc hm hr hd
    rw [cycle_send_fail env url user key logger b wr raw e hf hc hm hr hd, logs_append,
      scrape_logs]
    rfl

/-- Witness for C8: one failing cycle for each of the five failure points. -/
theorem failure_logs_one_error_witness :
    logs (scrapeAndSendLocalMetrics envFetchFail "h/p" "u" "k" ⟨[]⟩).trace =
      [⟨[], Level.error, "Could not scrape local metrics", [Field.err refusedErr]⟩] ∧
    logs (scrapeAndSendLocalMetrics envConvertFail "h/p" "u" "k" ⟨[]⟩).trace =
      [⟨[], Level.error, "Could not create write request", [Field.err sampleErr]⟩] ∧
    logs (scrapeAndSendLocalMetrics envMarshalFail "h/p" "u" "k" ⟨[]⟩).trace =
      [⟨[], Level.error, "Could not marshal write request", [Field.err sampleErr]⟩] ∧
    logs (scrapeAndSendLocalMetrics envBuildFail "h/p" "u" "k" ⟨[]⟩).trace =
      [⟨[], Level.error, "Could not create request", [Field.err sampleErr]⟩] ∧
    logs (scrapeAndSendLocalMetrics envSendFail "h/p" "u" "k" ⟨[]⟩).trace =
      [⟨[], Level.error, "Error creating http request", [Field.err sendErr]⟩] :=
  ⟨(failure_logs_one_error envFetchFail "h/p" "u" "k" ⟨[]⟩).1 refusedErr rfl,
   (failure_logs_one_error envConvertFail "h/p" "u" "k" ⟨[]⟩).2.1 [] sampleErr rfl rfl,
   (failure_logs_one_error envMarshalFail "h/p" "u" "k" ⟨[]⟩).2.2.1 [] ⟨[]⟩ sampleErr
     rfl rfl rfl,
   (failure_logs_one_error envBuildFail "h/p" "u" "k" ⟨[]⟩).2.2.2.1 [] ⟨[]⟩ [] sampleErr
     rfl rfl rfl rfl,
   (failure_logs_one_error envSendFail "h/p" "u" "k" ⟨[]⟩).2.2.2.2.1 [] ⟨[]⟩ [] sendErr
     rfl rfl rfl rfl rfl⟩

/-- C9: when the scrape request can be constructed and the HTTP client answers
    it with any status `s` and a body `b` that reads without error,
    `scrapeLocalMetrics` returns `b` and no error, after a single GET with no
    body to `http://localhost:6060/metrics`. -/
theorem scrape_returns_body (env : Env) (s : Int) (b : Bytes)
    (hr : env.newRequestErr "GET" "http://localhost:6060/metrics" = none)
    (hd : env.roundTrip ⟨"GET", "http://localhost:6060/metrics", none, []⟩
      = Except.ok ⟨s, (b, none)⟩) :
    (scrapeLocalMetrics env).val = Except.ok b ∧
    sent (scrapeLocalMetrics env).trace = [⟨"GET", "http://localhost:6060/metrics", none, []⟩] ∧
    (scrapeLocalMetrics env).trace =
      [Event.newRequest "GET" "http://localhost:6060/metrics" none,
       Event.clientDo ⟨"GET", "http://localhost:6060/metrics", none, []⟩,
       Event.readAll ⟨s, (b, none)⟩] := by
  rw [scrape_ok env s b hr hd]
  exact ⟨rfl, rfl, rfl⟩

/-- Witness for C9: a 404 answer with a two-byte body. -/
theorem scrape_returns_body_witness :
    (scrapeLocalMetrics envNotFound).val = Except.ok [117, 112] ∧
    sent (scrapeLocalMetrics envNotFound).trace
      = [⟨"GET", "http://localhost:6060/metrics", none, []⟩] :=
  ⟨(scrape_returns_body envNotFound 404 [117, 112] rfl rfl).1,
   (scrape_returns_body envNotFound 404 [117, 112] rfl rfl).2.1⟩

/-- The error of a failing `scrapeLocalMetrics` is the error of the step that
    failed, as the library gave it. -/
theorem fetch_error_passthrough (env : Env) (e : GoError) :
    (scrapeLocalMetrics env).val = Except.error e ↔
      (env.newRequestErr "GET" "http://localhost:6060/metrics" = some e ∨
       (env.newRequestErr "GET" "http://localhost:6060/metrics" = none ∧
        env.roundTrip ⟨"GET", "http://localhost:6060/metrics", none, []⟩ = Except.error e) ∨
       (env.newRequestErr "GET" "http://localhost:6060/metrics" = none ∧
        ∃ s b, env.roundTrip ⟨"GET", "http://localhost:6060/metrics", none, []⟩
          = Except.ok ⟨s, (b, some e)⟩)) := by
  rcases scrape_cases env with ⟨e1, h1⟩ | ⟨h1, e1, h2⟩ | ⟨h1, s, b, e1, h2⟩ | ⟨h1, s, b, h2⟩
  · rw [scrape_build_fail env e1 h1]
    simp [h1]
  · rw [scrape_transport_fail env e1 h1 h2]
    simp [h1, h2]
  · rw [scrape_read_fail env s b e1 h1 h2]
    simp [h1, h2]
  · rw [scrape_ok env s b h1 h2]
    simp [h1, h2]

theorem stockFetch_envFetchFail : stockFetch envFetchFail := by
  refine ⟨?_, ?_, ?_⟩
  · intro e h
    simp [envFetchFail, envOK] at h
  · intro e h
    simp [envFetchFail, envOK] at h
    exact ⟨_, h.symm⟩
  · intro s b e h
    simp [envFetchFail, envOK] at h

theorem stockFetch_envReadFail : stockFetch envReadFail := by
  refine ⟨?_, ?_, ?_⟩
  · intro e h
    simp [envReadFail, envOK] at h
  · intro e h
    simp [envReadFail, envOK] at h
  · intro s b e h
    simp [envReadFail, envOK] at h
    rw [← h.2.2]
    rfl

theorem stockFetch_envGetBuildFail : stockFetch envGetBuildFail := by
  refine ⟨?_, ?_, ?_⟩
  · intro e h
    simp [envGetBuildFail] at h
    exact ⟨_, h.symm⟩
  · intro e h
    simp [envGetBuildFail, envOK] at h
  · intro s b e h
    simp [envGetBuildFail, envOK] at h

/-- C7: the three failure conditions of `scrapeLocalMetrics` surface as
    distinct errors.  With the error shapes of net/http (`stockFetch`), for
    every failing call the returned error alone determines the step that
    failed: `classifyFetchError`, a function of the error only, gives request
    construction, transport or body read, whichever occurred. -/
theorem fetch_error_determines_step (env : Env) (e : GoError) (hs : stockFetch env)
    (hf : (scrapeLocalMetrics env).val = Except.error e) :
    failedStep env = some (classifyFetchError e) := by
  obtain ⟨hnew, hdo, hread⟩ := hs
  rcases scrape_cases env with ⟨e1, h1⟩ | ⟨h1, e1, h2⟩ | ⟨h1, s, b, e1, h2⟩ | ⟨h1, s, b, h2⟩
  · obtain ⟨inner, hin⟩ := hnew e1 h1
    have hsc := scrape_build_fail env e1 h1
    rw [hsc] at hf
    have he : e = e1 := (Except.error.inj hf).symm
    unfold failedStep
    rw [hsc, he, hin]
    rfl
  · obtain ⟨inner, hin⟩ := hdo e1 h2
    have hsc := scrape_transport_fail env e1 h1 h2
    rw [hsc] at hf
    have he : e = e1 := (Except.error.inj hf).symm
    unfold failedStep
    rw [hsc, he, hin]
    rfl
  · have hin := hread s b e1 h2
    have hsc := scrape_read_fail env s b e1 h1 h2
    rw [hsc] at hf
    have he : e = e1 := (Except.error.inj hf).symm
    unfold failedStep
    rw [hsc, he]
    cases e1 with
    | plain t => rfl
    | urlError op u inner => simp [GoError.isURLError] at hin
  · rw [scrape_ok env s b h1 h2] at hf
    cases hf

/-- Witness for C7: a refused connection, an unreadable body and a scrape URL
    that does not parse; the three errors are classified as the three steps. -/
theorem fetch_error_determines_step_witness :
    (failedStep envFetchFail = some (classifyFetchError refusedErr) ∧
      classifyFetchError refusedErr = FetchFailure.transport) ∧
    (failedStep envReadFail = some (classifyFetchError sampleErr) ∧
      classifyFetchError sampleErr = FetchFailure.bodyRead) ∧
    (failedStep envGetBuildFail = some (classifyFetchError parseErr) ∧
      classifyFetchError parseErr = FetchFailure.requestBuild) :=
  ⟨⟨fetch_error_determines_step envFetchFail refusedErr stockFetch_envFetchFail rfl, by decide⟩,
   ⟨fetch_error_determines_step envReadFail sampleErr stockFetch_envReadFail rfl, by decide⟩,
   ⟨fetch_error_determines_step envGetBuildFail parseErr stockFetch_envGetBuildFail rfl,
    by decide⟩⟩

theorem sep_split (c : Char) :
    ∀ (a1 a2 r1 r2 : List Char), c ∉ a1 → c ∉ a2 → a1 ++ c :: r1 = a2 ++ c :: r2 →
      a1 = a2 ∧ r1 = r2
  | [], [], r1, r2, _, _, h => by simpa using h
  | [], x :: a2, r1, r2, _, h2, h => by
    simp at h
    simp at h2
    exact absurd h.1 h2.1
  | x :: a1, [], r1, r2, h1, _, h => by
    simp at h
    simp at h1
    exact absurd h.1.symm h1.1
  | x :: a1, y :: a2, r1, r2, h1, h2, h => by
    simp at h h1 h2
    obtain ⟨ha, hr⟩ := sep_split c a1 a2 r1 r2 h1.2 h2.2 h.2
    exact ⟨by rw [h.1, ha], hr⟩

/-- C10: the target URL determines the credentials and the endpoint when no
    user contains a colon and no key contains an at sign. -/
theorem requestURL_injective (user1 key1 url1 user2 key2 url2 : String)
    (hu1 : ':' ∉ user1.data) (hu2 : ':' ∉ user2.data)
    (hk1 : '@' ∉ key1.data) (hk2 : '@' ∉ key2.data)
    (h : requestURL user1 key1 url1 = requestURL user2 key2 url2) :
    user1 = user2 ∧ key1 = key2 ∧ url1 = url2 := by
  have hd := congrArg String.data h
  simp only [requestURL, String.data_append] at hd
  have hd2 : user1.data ++ ':' :: (key1.data ++ '@' :: url1.data)
      = user2.data ++ ':' :: (key2.data ++ '@' :: url2.data) := by
    simpa [List.append_assoc] using hd
  obtain ⟨hu, hrest⟩ := sep_split ':' _ _ _ _ hu1 hu2 hd2
  obtain ⟨hk, hl⟩ := sep_split '@' _ _ _ _ hk1 hk2 hrest
  exact ⟨String.ext hu, String.ext hk, String.ext hl⟩

/-- Witness for C10. -/
theorem requestURL_injective_witness :
    requestURL "u" "k" "h/p" = "https://u:k@h/p" ∧ ("u" = "u" ∧ "k" = "k" ∧ "h/p" = "h/p") :=
  ⟨by decide, requestURL_injective "u" "k" "h/p" "u" "k" "h/p"
    (by decide) (by decide) (by decide) (by decide) rfl⟩

/-- Without the condition on the separators the target URL does not determine
    the credentials: user `a:b` with key `c` and user `a` with key `b:c` give
    the same URL. -/
theorem requestURL_collision :
    requestURL "a:b" "c" "h/p" = requestURL "a" "b:c" "h/p" := by
  decide

theorem scraperLoop_succ (envs : Nat → Env) (url user key : String) (promLogger : Logger) :
    ∀ (n i : Nat), (scraperLoop envs url user key promLogger i (n + 1)).trace =
      (scraperLoop envs url user key promLogger i n).trace ++
        Event.sleep 15000000000 ::
          (scrapeAndSendLocalMetrics (envs (i + n)) url user key promLogger).trace
  | 0, i => by
    simp [scraperLoop, bind, pure, timeSleep, emit, Second]
  | n + 1, i => by
    have ih := scraperLoop_succ envs url user key promLogger n (i + 1)
    have unfold_one : ∀ k, (scraperLoop envs url user key promLogger i (k + 1)).trace =
        Event.sleep 15000000000 ::
          ((scrapeAndSendLocalMetrics (envs i) url user key promLogger).trace ++
            (scraperLoop envs url user key promLogger (i + 1) k).trace) := by
      intro k
      simp [scraperLoop, bind, timeSleep, emit, Second]
    rw [unfold_one (n + 1), ih, unfold_one n]
    have : i + 1 + n = i + (n + 1) := by omega
    rw [this]
    simp [List.append_assoc]

theorem cycle_no_sleep (env : Env) (url user key : String) (logger : Logger) :
    (scrapeAndSendLocalMetrics env url user key logger).trace.filter Event.isSleep = [] := by
  rw [List.filter_eq_nil_iff]
  intro ev h
  rcases stage_cases env url user key with ⟨e, hf⟩ | ⟨b, e, hf, hc⟩ | ⟨b, wr, e, hf, hc, hm⟩ |
    ⟨b, wr, raw, e, hf, hc, hm, hr⟩ | ⟨b, wr, raw, e, hf, hc, hm, hr, hd⟩ |
    ⟨b, wr, raw, res, hf, hc, hm, hr, hd⟩
  · rw [cycle_fetch_fail env url user key logger e hf, List.mem_append] at h
    rcases h with h | h
    · rcases scrape_events env ev h with h | h | ⟨res, h⟩ <;> subst h <;> simp [Event.isSleep]
    · simp at h; subst h; simp [Event.isSleep]
  · rw [cycle_convert_fail env url user key logger b e hf hc, List.mem_append] at h
    rcases h with h | h
    · rcases scrape_events env ev h with h | h | ⟨res, h⟩ <;> subst h <;> simp [Event.isSleep]
    · simp at h; rcases h with h | h <;> subst h <;> simp [Event.isSleep]
  · rw [cycle_marshal_fail env url user key logger b wr e hf hc hm, List.mem_append] at h
    rcases h with h | h
    · rcases scrape_events env ev h with h | h | ⟨res, h⟩ <;> subst h <;> simp [Event.isSleep]
    · simp at h; rcases h with h | h | h <;> subst h <;> simp [Event.isSleep]
  · rw [cycle_build_fail env url user key logger b wr raw e hf hc hm hr, List.mem_append] at h
    rcases h with h | h
    · rcases scrape_events env ev h with h | h | ⟨res, h⟩ <;> subst h <;> simp [Event.isSleep]
    · simp at h; rcases h with h | h | h | h | h <;> subst h <;> simp [Event.isSleep]
  · rw [cycle_send_fail env url user key logger b wr raw e hf hc hm hr hd, List.mem_append] at h
    rcases h with h | h
    · rcases scrape_events env ev h with h | h | ⟨res, h⟩ <;> subst h <;> simp [Event.isSleep]
    · simp at h; rcases h with h | h | h | h | h | h <;> subst h <;> simp [Event.isSleep]
  · rw [cycle_ok env url user key logger b wr raw res hf hc hm hr hd, List.mem_append] at h
    rcases h with h | h
    · rcases scrape_events env ev h with h | h | ⟨res, h⟩ <;> subst h <;> simp [Event.isSleep]
    · simp at h; rcases h with h | h | h | h | h | h <;> subst h <;> simp [Event.isSleep]

theorem run_even (envs : Nat → Env) (url user key : String) (logger : Logger) :
    ∀ n : Nat, Sched.run envs url user key logger (2 * n) =
      ⟨Phase.Idle, n, (StartPrometheusScraper envs url user key logger n).trace⟩
  | 0 => rfl
  | n + 1 => by
    have ih := run_even envs url user key logger n
    have h2 : 2 * (n + 1) = 2 * n + 1 + 1 := by ring
    rw [h2]
    simp only [Sched.run, ih, Sched.step, StartPrometheusScraper]
    rw [scraperLoop_succ]
    simp [timeSleep, emit, Second]

theorem start_succ (envs : Nat → Env) (url user key : String) (logger : Logger) (n : Nat) :
    (StartPrometheusScraper envs url user key logger (n + 1)).trace =
      (StartPrometheusScraper envs url user key logger n).trace ++
        [Event.sleep 15000000000] ++
        (scrapeAndSendLocalMetrics (envs n) url user key
          (logger.With [Field.str "component" "prometheus_scraper"])).trace := by
  simp only [StartPrometheusScraper]
  rw [scraperLoop_succ]
  simp

theorem start_sleeps (envs : Nat → Env) (url user key : String) (logger : Logger) :
    ∀ n : Nat, (StartPrometheusScraper envs url user key logger n).trace.filter Event.isSleep =
      List.replicate n (Event.sleep 15000000000)
  | 0 => rfl
  | k + 1 => by
    rw [start_succ, List.filter_append, List.filter_append, cycle_no_sleep,
      start_sleeps envs url user key logger k]
    simp [Event.isSleep, List.replicate_succ']

/-- C5: the scheduler as a step function on the states `Idle` and `Running`.
    After any number `n` of cycles, whatever their outcomes, it is `Idle`; its
    next step is one sleep of 15 seconds, which leads to `Running`; the step
    after that runs cycle `n + 1` with the same url, user and key and leads
    back to `Idle`.  The actions of `n` iterations contain exactly `n` sleeps,
    of 15 seconds each, and an iteration adds one sleep followed by one
    cycle. -/
theorem scheduler_never_stops (envs : Nat → Env) (url user key : String) (logger : Logger)
    (n : Nat) :
    Sched.run envs url user key logger (2 * n) =
      ⟨Phase.Idle, n, (StartPrometheusScraper envs url user key logger n).trace⟩ ∧
    Sched.run envs url user key logger (2 * n + 1) =
      ⟨Phase.Running, n,
        (StartPrometheusScraper envs url user key logger n).trace ++
          [Event.sleep 15000000000]⟩ ∧
    Sched.run envs url user key logger (2 * n + 2) =
      ⟨Phase.Idle, n + 1,
        (StartPrometheusScraper envs url user key logger n).trace ++
          [Event.sleep 15000000000] ++
          (scrapeAndSendLocalMetrics (envs n) url user key
            (logger.With [Field.str "component" "prometheus_scraper"])).trace⟩ ∧
    (StartPrometheusScraper envs url user key logger (n + 1)).trace =
      (StartPrometheusScraper envs url user key logger n).trace ++
        [Event.sleep 15000000000] ++
        (scrapeAndSendLocalMetrics (envs n) url user key
          (logger.With [Field.str "component" "prometheus_scraper"])).trace ∧
    (StartPrometheusScraper envs url user key logger n).trace.filter Event.isSleep =
      List.replicate n (Event.sleep 15000000000) := by
  refine ⟨run_even envs url user key logger n, ?_, ?_,
    start_succ envs url user key logger n, start_sleeps envs url user key logger n⟩
  · simp only [Sched.run, run_even envs url user key logger n, Sched.step]
    simp [timeSleep, emit, Second]
  · have h2 : 2 * n + 2 = 2 * (n + 1) := by ring
    rw [h2, run_even envs url user key logger (n + 1), start_succ]

end PromRemoteWrite
